import Mathlib

/-!
Verification of the pETI sync server, a shallow embedding of
`peti_server/models.py` and `peti_server/sync_script.py`.

Strings are modelled with Lean `String` (URLs are inspected through
`String.data`, the underlying character list).  Stateful code is modelled by
explicit state passing: the local filesystem is the list of existing
directory paths, outcomes of remote HTTP calls and of `shutil.rmtree` are
supplied as oracles, and a run returns the ordered list of observable events
it performed.  Behaviour of the `requests` library (which the source calls)
is modelled from that library's documented semantics: `raise_for_status`
raises `HTTPError` exactly for status codes 400-599, and since requests
2.27 the `JSONDecodeError` raised by `Response.json()` is a subclass of
`requests.exceptions.RequestException` (via `InvalidJSONError`).
-/

namespace Peti

/-- API method endpoints for Resilio Sync (`models.py`, class `ApiMethod`). -/
inductive ApiMethod
  | ADD_FOLDER
  | REMOVE_FOLDER
  | SET_FOLDER_PREFS
  | SHUTDOWN
deriving DecidableEq

/-- The string value of each `ApiMethod` enum member. -/
def ApiMethod.value : ApiMethod → String
  | .ADD_FOLDER => "add_folder"
  | .REMOVE_FOLDER => "remove_folder"
  | .SET_FOLDER_PREFS => "set_folder_prefs"
  | .SHUTDOWN => "shutdown"

/-- One entry of the `folders` mapping of the YAML configuration: a dict that
may or may not carry a `secret` key (read as
`folders.get(folder_name, {}).get('secret', '')` in `models.py`). -/
structure FolderConfig where
  secret : Option String
deriving DecidableEq

/-- The class `Configuration` of `models.py`, reduced to the values its
properties expose (the YAML loading itself is out of scope).
`game_deny_list` is the `games.denylist` list and `folders` the static
`folders` table of the YAML file. -/
structure Configuration where
  user : String
  password : String
  host : String
  sync_dir : String
  data_dir : String
  sync_options : String
  game_deny_list : List String
  keep_discarded_games : Bool
  folders : List (String × FolderConfig)
deriving DecidableEq

/-- `Configuration.get_folders`. -/
def Configuration.get_folders (c : Configuration) : List (String × FolderConfig) :=
  c.folders

/-- The class `SyncFolder` of `models.py` after construction. -/
structure SyncFolder where
  config : Configuration
  name : String
  id : String
  secret : String
deriving DecidableEq

/-- Python `a or b` for an optional string `a`: `None` and the empty string
are falsy, so both fall through to `b`. -/
def py_str_or : Option String → String → String
  | none, b => b
  | some a, b => if a = "" then b else a

/-- `SyncFolder._get_secret_from_config`:
`self.config.get_folders().get(folder_name, {}).get('secret', '')`. -/
def get_secret_from_config (config : Configuration) (folder_name : String) : String :=
  match config.get_folders.lookup folder_name with
  | some fc => fc.secret.getD ""
  | none => ""

/-- `SyncFolder.__init__`: `self.id = folder_id or folder_name` and
`self.secret = secret or self._get_secret_from_config(folder_name)`,
where `folder_id` and `secret` default to `None`. -/
def SyncFolder.make (config : Configuration) (folder_name : String)
    (folder_id : Option String) (secret : Option String) : SyncFolder :=
  { config := config
    name := folder_name
    id := py_str_or folder_id folder_name
    secret := py_str_or secret (get_secret_from_config config folder_name) }

/-- `API_URL_BASE = "http://{host}/api?method={method}"`, instantiated. -/
def API_URL_BASE (host method : String) : String :=
  "http://" ++ host ++ "/api?method=" ++ method

/-- `API_FOLDER_URL = API_URL_BASE + "&dir={dir}&secret={secret}&{options}"`,
instantiated. -/
def API_FOLDER_URL (host method dir secret options : String) : String :=
  API_URL_BASE host method ++ "&dir=" ++ dir ++ "&secret=" ++ secret ++ "&" ++ options

/-- `API_SIMPLE_URL = API_URL_BASE + "&dir={dir}&{options}"`, instantiated. -/
def API_SIMPLE_URL (host method dir options : String) : String :=
  API_URL_BASE host method ++ "&dir=" ++ dir ++ "&" ++ options

/-- The URL construction of `SyncFolder._make_sync_request` (`models.py`
lines 141-157): `if self.secret:` selects `API_FOLDER_URL`, otherwise
`API_SIMPLE_URL`; `dir` is the f-string `f"{self.config.sync_dir}/{self.id}"`;
`force` appends `&force=1`. -/
def make_url (f : SyncFolder) (method : ApiMethod) (force : Bool) : String :=
  let url :=
    if f.secret ≠ "" then
      API_FOLDER_URL f.config.host method.value (f.config.sync_dir ++ "/" ++ f.id)
        f.secret f.config.sync_options
    else
      API_SIMPLE_URL f.config.host method.value (f.config.sync_dir ++ "/" ++ f.id)
        f.config.sync_options
  if force then url ++ "&force=1" else url

/-- A parsed JSON response body.  Either key may be absent: the source reads
`json_response.get('message', '')` and `json_response.get('error', 0)`. -/
structure ApiResponse where
  message : Option String
  error : Option Int
deriving DecidableEq

/-- The `action` string chosen per method (`models.py` lines 164-171). -/
def action_for : ApiMethod → String
  | .REMOVE_FOLDER => "removed"
  | .ADD_FOLDER => "added or updated"
  | .SET_FOLDER_PREFS => "preferences updated"
  | .SHUTDOWN => "processed (unknown method)"

/-- `sync_error` as read from the body: `json_response.get('error', 0)`. -/
def sync_error_of (resp : ApiResponse) : Int :=
  resp.error.getD 0

/-- `sync_message` after the remap of `models.py` lines 174-179: error code 3
becomes "Folder is not known", every other code keeps
`json_response.get('message', '')`. -/
def remapped_message (resp : ApiResponse) : String :=
  let sync_message := resp.message.getD ""
  if sync_error_of resp = 3 then "Folder is not known" else sync_message

/-- The `log_message` built at `models.py` lines 181-184. -/
def response_log (f : SyncFolder) (method : ApiMethod) (resp : ApiResponse) : String :=
  let log_message := "[" ++ f.name ++ "|" ++ f.id ++ "] " ++ action_for method
  if sync_error_of resp ≠ 0 then
    log_message ++ ": \x27" ++ remapped_message resp ++ "\x27 (" ++
      toString (sync_error_of resp) ++ ")"
  else log_message

/-- The exceptions the `try` block of `_make_sync_request` can raise:
a connection-level failure from `requests.get`, the `HTTPError` from
`raise_for_status`, or the `JSONDecodeError` from `response.json()`. -/
inductive ReqException
  | transport
  | http_status (code : Nat)
  | json_decode
deriving DecidableEq

/-- Whether an exception is an instance of
`requests.exceptions.RequestException`, the class the `except` clause of
`_make_sync_request` catches.  Connection errors and `HTTPError` always are;
the `JSONDecodeError` raised by `Response.json()` is one as well since
requests 2.27 (it subclasses `InvalidJSONError`, a `RequestException`). -/
def is_request_exception : ReqException → Bool
  | .transport => true
  | .http_status _ => true
  | .json_decode => true

/-- Outcome of the HTTP exchange performed by `requests.get`: either the
request could not complete at all, or a response with a status code and a
body that may or may not parse as JSON arrived. -/
inductive HttpResult
  | error
  | response (status : Nat) (body : Option ApiResponse)
deriving DecidableEq

/-- `Response.raise_for_status` raises `HTTPError` exactly for the 4xx and
5xx status codes (400-599), per the requests library. -/
def raise_for_status_raises (status : Nat) : Bool :=
  400 ≤ status && status < 600

/-- The `try` block of `_make_sync_request` (`models.py` lines 141-185):
build the URL, perform the request, `raise_for_status`, parse the body,
remap and log, and return `True` -- or raise one of the exceptions. -/
def make_sync_request_try (f : SyncFolder) (method : ApiMethod) (force : Bool)
    (http : HttpResult) : Except ReqException (Bool × String) :=
  let _url := make_url f method force
  match http with
  | .error => Except.error ReqException.transport
  | .response status body =>
    if raise_for_status_raises status then
      Except.error (ReqException.http_status status)
    else
      match body with
      | none => Except.error ReqException.json_decode
      | some resp => Except.ok (true, response_log f method resp)

/-- `_make_sync_request` with its handler
`except requests.exceptions.RequestException` (`models.py` lines 187-189):
a caught exception is logged and yields `False`; an exception that is not a
`RequestException` would propagate to the caller. -/
def make_sync_request (f : SyncFolder) (method : ApiMethod) (force : Bool)
    (http : HttpResult) : Except ReqException Bool :=
  match make_sync_request_try f method force http with
  | .ok (b, _) => Except.ok b
  | .error e => if is_request_exception e then Except.ok false else Except.error e

/-- `SyncFolder.sync`: `self._make_sync_request(ApiMethod.ADD_FOLDER)`. -/
def SyncFolder.sync (f : SyncFolder) (http : HttpResult) : Except ReqException Bool :=
  make_sync_request f ApiMethod.ADD_FOLDER false http

/-- `SyncFolder.update_prefs`:
`self._make_sync_request(ApiMethod.SET_FOLDER_PREFS)`. -/
def SyncFolder.update_prefs (f : SyncFolder) (http : HttpResult) : Except ReqException Bool :=
  make_sync_request f ApiMethod.SET_FOLDER_PREFS false http

/-- `SyncFolder.remove`:
`self._make_sync_request(ApiMethod.REMOVE_FOLDER, force=True)`. -/
def SyncFolder.remove (f : SyncFolder) (http : HttpResult) : Except ReqException Bool :=
  make_sync_request f ApiMethod.REMOVE_FOLDER true http

/-- Whether a string starts with the character `/` (for `os.path.join`). -/
def starts_with_slash (s : String) : Bool :=
  match s.data with
  | '/' :: _ => true
  | _ => false

/-- Whether a string ends with the character `/` (for `os.path.join`). -/
def ends_with_slash (s : String) : Bool :=
  match s.data.getLast? with
  | some '/' => true
  | _ => false

/-- POSIX `os.path.join(a, b)` for two components: an absolute `b` discards
`a`; otherwise `a` and `b` are joined with exactly one separator. -/
def os_path_join (a b : String) : String :=
  if starts_with_slash b then b
  else if a = "" then b
  else if ends_with_slash a then a ++ b
  else a ++ "/" ++ b

/-- The observable effects of a script run, in order.  The `Bool` on an API
event is the transport-level boolean the call returned. -/
inductive Event
  | sync_call (id : String) (ok : Bool)
  | update_prefs_call (id : String) (ok : Bool)
  | remove_call (id : String) (ok : Bool)
  | rmtree (path : String)
deriving DecidableEq

/-- The environment of one script run: the boolean each remote call returns
(`folder.sync()` / `folder.update_prefs()` / `folder.remove()`), and which
`shutil.rmtree` invocations raise (e.g. permission errors). -/
structure Env where
  remote : SyncFolder → ApiMethod → Bool
  rmtree_raises : String → Bool

/-- `sync_script.py` lines 72-75: one `SyncFolder(config, folder_name,
secret=values.get('secret', ''))` per entry of `config.get_folders()`. -/
def system_folders_of (config : Configuration) : List SyncFolder :=
  config.get_folders.map (fun p => SyncFolder.make config p.1 none (some (p.2.secret.getD "")))

/-- `sync_script.py` lines 90-99 of `update_game_folders`: the denylist
partition.  `allow_rows` is the list from `get_games_from_db`,
`discard_rows` the list from `get_discarded_from_db`, `denied` the
configuration's `game_deny_list`; the rows kept their database order. -/
def partition_folders (allow_rows discard_rows : List SyncFolder)
    (denied : List String) : List SyncFolder × List SyncFolder :=
  let moved_to_deny := allow_rows.filter (fun f => denied.contains f.id)
  let allow_list := allow_rows.filter (fun f => !denied.contains f.id)
  let deny_list := discard_rows ++ moved_to_deny
  (allow_list, deny_list)

/-- `sync_script.py` lines 80-81: the sequential system phase, one
`folder.sync()` per system folder. -/
def system_phase (env : Env) (sys : List SyncFolder) : List Event :=
  sys.map (fun f => Event.sync_call f.id (env.remote f ApiMethod.ADD_FOLDER))

/-- `sync_script.py` lines 106-125: the allow phase.  The thread pool is
modelled by its canonical sequential schedule; within one folder's unit of
work `folder.sync()` precedes `folder.update_prefs()` (lines 110-111). -/
def allow_phase (env : Env) (allow_list : List SyncFolder) : List Event :=
  allow_list.flatMap (fun f =>
    [Event.sync_call f.id (env.remote f ApiMethod.ADD_FOLDER),
     Event.update_prefs_call f.id (env.remote f ApiMethod.SET_FOLDER_PREFS)])

/-- `sync_script.py` lines 132-139: the deny loop.  Per folder:
`folder.remove()` (its result is not inspected), then
`if os.path.exists(folder_path): shutil.rmtree(folder_path)`.  The loop body
is not guarded by any `try`, so an exception from `shutil.rmtree`
propagates: the returned flag is `false` and the remaining folders are not
processed. -/
def deny_loop (config : Configuration) (env : Env) :
    List SyncFolder → List String → List Event × List String × Bool
  | [], fs => ([], fs, true)
  | f :: rest, fs =>
    let ev := Event.remove_call f.id (env.remote f ApiMethod.REMOVE_FOLDER)
    let folder_path := os_path_join config.sync_dir f.id
    if fs.contains folder_path then
      if env.rmtree_raises folder_path then ([ev], fs, false)
      else
        let r := deny_loop config env rest (fs.filter (fun q => q != folder_path))
        (ev :: Event.rmtree folder_path :: r.1, r.2)
    else
      let r := deny_loop config env rest fs
      (ev :: r.1, r.2)

/-- Result of a whole script run: the events in order, the final local
filesystem (list of existing directory paths), and whether the run completed
without an uncaught exception. -/
structure RunResult where
  events : List Event
  fs : List String
  completed : Bool
deriving DecidableEq

/-- `update_game_folders` (`sync_script.py` lines 54-142) as a function of
its inputs: the configuration, the two catalog row lists (database access is
out of scope), the environment and the initial filesystem.  System phase,
then allow phase, then -- unless `keep_discarded_games` is set -- the deny
loop. -/
def update_game_folders (config : Configuration)
    (allow_rows discard_rows : List SyncFolder) (env : Env)
    (fs : List String) : RunResult :=
  let sys_events := system_phase env (system_folders_of config)
  let lists := partition_folders allow_rows discard_rows config.game_deny_list
  let allow_events := allow_phase env lists.1
  if config.keep_discarded_games then
    ⟨sys_events ++ allow_events, fs, true⟩
  else
    let d := deny_loop config env lists.2 fs
    ⟨sys_events ++ allow_events ++ d.1, d.2.1, d.2.2⟩

/-- One unit of work of `cleanup`'s pool (`sync_script.py` lines 162-170):
`folder.remove()` (result not inspected), then delete the local folder if it
exists.  An exception from `shutil.rmtree` is confined to this unit: it is
re-raised at `future.result()` and logged there (lines 179-184), so the
filesystem keeps the path and the other folders are unaffected. -/
def cleanup_step (config : Configuration) (env : Env) (fs : List String)
    (f : SyncFolder) : List Event × List String :=
  let ev := Event.remove_call f.id (env.remote f ApiMethod.REMOVE_FOLDER)
  let folder_path := os_path_join config.sync_dir f.id
  if fs.contains folder_path then
    if env.rmtree_raises folder_path then ([ev], fs)
    else ([ev, Event.rmtree folder_path], fs.filter (fun q => q != folder_path))
  else ([ev], fs)

/-- The canonical sequential schedule of `cleanup`'s thread pool over the
folder list. -/
def cleanup_loop (config : Configuration) (env : Env) :
    List SyncFolder → List String → List Event × List String
  | [], fs => ([], fs)
  | f :: rest, fs =>
    let s := cleanup_step config env fs f
    let r := cleanup_loop config env rest s.2
    (s.1 ++ r.1, r.2)

/-- Python `str.lower()` (character-wise lowercasing). -/
def py_lower (s : String) : String :=
  ⟨s.data.map Char.toLower⟩

/-- `cleanup` (`sync_script.py` lines 145-184): `confirm` is the `input()`
response, compared via `response.lower() == "yes"`; the folders processed
are `get_games_from_db` concatenated with `get_discarded_from_db`
(lines 157-158), i.e. the catalog allow rows followed by the discard rows. -/
def cleanup_run (config : Configuration) (confirm : String)
    (allow_rows discard_rows : List SyncFolder) (env : Env)
    (fs : List String) : RunResult :=
  if py_lower confirm = "yes" then
    let game_folders := allow_rows ++ discard_rows
    let r := cleanup_loop config env game_folders fs
    ⟨r.1, r.2, true⟩
  else ⟨[], fs, true⟩

/-! Concrete fixtures used by witnesses and counterexamples. -/

/-- A concrete configuration. -/
def cfg0 : Configuration :=
  { user := "admin"
    password := "pw"
    host := "localhost:8080"
    sync_dir := "/sync"
    data_dir := "/data"
    sync_options := "selectivesync=1"
    game_deny_list := []
    keep_discarded_games := false
    folders := [("Tools", ⟨some "SECRETTOOLS"⟩)] }

/-- Short-hand for a concrete catalog folder over `cfg0`. -/
def mkFolder (n i s : String) : SyncFolder := ⟨cfg0, n, i, s⟩

/-- An environment whose remote calls all report failure and whose `rmtree`
never raises. -/
def envNoRemote : Env := ⟨fun _ _ => false, fun _ => false⟩

/-! Claim C9: constructor defaults of `SyncFolder`. -/

/-- C9: when the id argument is omitted the folder's id equals its name;
when the secret argument is omitted the secret is resolved by looking up the
name in the configuration's static folder table, and a name absent from that
table yields the empty string rather than an error. -/
theorem c9_constructor_defaults (config : Configuration) (folder_name : String) :
    (SyncFolder.make config folder_name none none).id = folder_name ∧
    (SyncFolder.make config folder_name none none).secret =
      get_secret_from_config config folder_name ∧
    (config.get_folders.lookup folder_name = none →
      (SyncFolder.make config folder_name none none).secret = "") := by
  refine ⟨rfl, rfl, fun h => ?_⟩
  simp [SyncFolder.make, py_str_or, get_secret_from_config, h]

/-- Witness for C9 at a concrete configuration: the name "Other" is absent
from `cfg0`'s folder table, so the secret defaults to the empty string, and
the id defaults to the name. -/
theorem c9_witness :
    (SyncFolder.make cfg0 "Other" none none).id = "Other" ∧
    (SyncFolder.make cfg0 "Other" none none).secret = "" := by
  have h := c9_constructor_defaults cfg0 "Other"
  exact ⟨h.1, h.2.2 (by decide)⟩

/-! Claim C6: the error-code-3 message remap. -/

/-- C6: a response whose application error code is 3 always logs the message
"Folder is not known", whatever the body's message was; any other error code
passes the body's message through unchanged. -/
theorem c6_error_remap (m : String) (e : Int) :
    (e = 3 → remapped_message ⟨some m, some e⟩ = "Folder is not known") ∧
    (e ≠ 3 → remapped_message ⟨some m, some e⟩ = m) := by
  constructor <;> intro h <;> simp [remapped_message, sync_error_of, h]

/-- Witness for C6: error code 3 rewrites an arbitrary message, error code 1
keeps it. -/
theorem c6_witness :
    remapped_message ⟨some "anything", some 3⟩ = "Folder is not known" ∧
    remapped_message ⟨some "kept", some 1⟩ = "kept" :=
  ⟨(c6_error_remap "anything" 3).1 rfl, (c6_error_remap "kept" 1).2 (by decide)⟩

/-! Claim C1: the denylist partition of `update_game_folders`. -/

/-- C1 as amended: in the partition computed at `sync_script.py` lines
90-99, (1) every folder of the resulting `allow_list` has an id outside the
denylist; (2) every allow row whose id is in the denylist is in the
resulting `deny_list`; (3) the discard rows form a prefix of `deny_list` in
their original order; (4) the moved allow rows follow them, keeping their
original relative order (they form a sublist of the allow rows); and (5)
`allow_list` and `deny_list` are disjoint by id, provided no discard row
shares an id with an allow row that is outside the denylist. -/
theorem c1_partition (allow_rows discard_rows : List SyncFolder)
    (denied : List String) :
    (∀ f ∈ (partition_folders allow_rows discard_rows denied).1, f.id ∉ denied) ∧
    (∀ f ∈ allow_rows, f.id ∈ denied →
      f ∈ (partition_folders allow_rows discard_rows denied).2) ∧
    discard_rows <+: (partition_folders allow_rows discard_rows denied).2 ∧
    List.Sublist
      ((partition_folders allow_rows discard_rows denied).2.drop discard_rows.length)
      allow_rows ∧
    ((∀ g ∈ discard_rows, ∀ f ∈ allow_rows, g.id = f.id → g.id ∈ denied) →
      ∀ f ∈ (partition_folders allow_rows discard_rows denied).1,
        ∀ g ∈ (partition_folders allow_rows discard_rows denied).2, f.id ≠ g.id) := by
  refine ⟨?_, ?_, ?_, ?_, ?_⟩
  · intro f hf
    have := List.mem_filter.mp hf
    simpa [List.elem_iff] using this.2
  · intro f hf hden
    refine List.mem_append.mpr (Or.inr ?_)
    refine List.mem_filter.mpr ⟨hf, ?_⟩
    simpa [List.elem_iff] using hden
  · exact ⟨allow_rows.filter (fun f => denied.contains f.id), rfl⟩
  · have : (partition_folders allow_rows discard_rows denied).2.drop discard_rows.length
        = allow_rows.filter (fun f => denied.contains f.id) :=
      List.drop_left discard_rows _
    rw [this]
    exact List.filter_sublist allow_rows
  · intro hside f hf g hg heq
    have hfA : f ∈ allow_rows ∧ ¬ denied.contains f.id := by
      have := List.mem_filter.mp hf
      exact ⟨this.1, by simpa using this.2⟩
    have hfnot : f.id ∉ denied := fun hmem => hfA.2 (List.elem_iff.mpr hmem)
    rcases List.mem_append.mp hg with hgd | hgm
    · have := hside g hgd f hfA.1 heq.symm
      rw [heq] at hfnot
      exact hfnot this
    · have := (List.mem_filter.mp hgm).2
      have hgmem : g.id ∈ denied := List.elem_iff.mp (by simpa using this)
      rw [heq] at hfnot
      exact hfnot hgmem

/-- Witness for C1: denylist = ["b"], allow rows A (id "a") and B (id "b"),
discard row D (id "d").  A stays allowed, B is moved to the deny list, and
the disjointness conclusion applies to A versus D. -/
theorem c1_witness :
    (mkFolder "A" "a" "s").id ∉ ["b"] ∧
    mkFolder "B" "b" "s" ∈
      (partition_folders [mkFolder "A" "a" "s", mkFolder "B" "b" "s"]
        [mkFolder "D" "d" "x"] ["b"]).2 ∧
    (mkFolder "A" "a" "s").id ≠ (mkFolder "D" "d" "x").id := by
  have h := c1_partition [mkFolder "A" "a" "s", mkFolder "B" "b" "s"]
    [mkFolder "D" "d" "x"] ["b"]
  refine ⟨h.1 (mkFolder "A" "a" "s") (by decide), ?_, ?_⟩
  · exact h.2.1 (mkFolder "B" "b" "s") (by decide) (by decide)
  · exact h.2.2.2.2 (by decide) (mkFolder "A" "a" "s") (by decide)
      (mkFolder "D" "d" "x") (by decide)

/-- C1 counterexample to the claim as stated: with an empty denylist, a
discard row whose id "game_a" also occurs among the allow rows ends up in
`deny_list` while the allow row stays in `allow_list`; the two lists are not
disjoint by id. -/
theorem c1_counterexample :
    mkFolder "GameA" "game_a" "k1" ∈
      (partition_folders [mkFolder "GameA" "game_a" "k1"]
        [mkFolder "game_a" "game_a" "k2"] []).1 ∧
    mkFolder "game_a" "game_a" "k2" ∈
      (partition_folders [mkFolder "GameA" "game_a" "k1"]
        [mkFolder "game_a" "game_a" "k2"] []).2 ∧
    (mkFolder "GameA" "game_a" "k1").id = (mkFolder "game_a" "game_a" "k2").id := by
  decide

/-! Claim C7: the keep_discarded_games flag skips the deny phase. -/

/-- Proof helper: forget the recorded call result of an event, to state that
two traces agree except for the booleans the remote returned. -/
def erase_ok : Event → Event
  | .sync_call i _ => .sync_call i true
  | .update_prefs_call i _ => .update_prefs_call i true
  | .remove_call i _ => .remove_call i true
  | .rmtree p => .rmtree p

/-- C7: when `keep_discarded_games` is set the run is exactly the system and
allow phases -- no Remove call is issued, no local mirror is deleted, the
filesystem is untouched -- and for any configuration with the flag clear the
run consists of the same two phases followed by the deny loop: the flag only
gates the deny suffix. -/
theorem c7_keep_discarded_skips_deny (config : Configuration)
    (allow_rows discard_rows : List SyncFolder) (env : Env) (fs : List String)
    (hkeep : config.keep_discarded_games = true) :
    update_game_folders config allow_rows discard_rows env fs =
      ⟨system_phase env (system_folders_of config) ++
        allow_phase env
          (partition_folders allow_rows discard_rows config.game_deny_list).1,
        fs, true⟩ ∧
    (∀ e ∈ (update_game_folders config allow_rows discard_rows env fs).events,
      (∀ i b, e ≠ Event.remove_call i b) ∧ ∀ p, e ≠ Event.rmtree p) ∧
    (∀ config' : Configuration, config'.keep_discarded_games = false →
      (update_game_folders config' allow_rows discard_rows env fs).events =
        system_phase env (system_folders_of config') ++
        allow_phase env
          (partition_folders allow_rows discard_rows config'.game_deny_list).1 ++
        (deny_loop config' env
          (partition_folders allow_rows discard_rows config'.game_deny_list).2 fs).1) := by
  refine ⟨by simp [update_game_folders, hkeep], ?_, ?_⟩
  · intro e he
    simp only [update_game_folders, hkeep, if_true] at he
    rcases List.mem_append.mp he with hs | ha
    · obtain ⟨f, -, rfl⟩ := List.mem_map.mp hs
      exact ⟨fun i b => by simp, fun p => by simp⟩
    · obtain ⟨f, -, hf2⟩ := List.mem_flatMap.mp ha
      have h2 : e = Event.sync_call f.id (env.remote f ApiMethod.ADD_FOLDER) ∨
          e = Event.update_prefs_call f.id (env.remote f ApiMethod.SET_FOLDER_PREFS) := by
        simpa using hf2
      rcases h2 with rfl | rfl
      · exact ⟨fun i b => by simp, fun p => by simp⟩
      · exact ⟨fun i b => by simp, fun p => by simp⟩
  · intro config' hkeep'
    simp [update_game_folders, hkeep']

/-- `cfg0` with the keep-discarded flag set. -/
def cfgKeep : Configuration := { cfg0 with keep_discarded_games := true }

/-- Witness for C7 at a concrete run: one discard row, its mirror present;
with the flag set the run is just the (empty) system-and-allow trace and the
mirror survives. -/
theorem c7_witness :
    update_game_folders cfgKeep [] [mkFolder "Old" "old" "k"] envNoRemote
        ["/sync/old"] =
      ⟨system_phase envNoRemote (system_folders_of cfgKeep) ++
        allow_phase envNoRemote
          (partition_folders [] [mkFolder "Old" "old" "k"] cfgKeep.game_deny_list).1,
        ["/sync/old"], true⟩ :=
  (c7_keep_discarded_skips_deny cfgKeep [] [mkFolder "Old" "old" "k"] envNoRemote
    ["/sync/old"] rfl).1

/-! Claim C2: the deny phase deletes the local mirror regardless of the
Remove call's result (`folder.remove()`'s boolean is ignored). -/

/-- Proof helper: the deny loop's trace modulo recorded booleans, its final
filesystem and its completion flag do not depend on the remote oracle. -/
theorem deny_loop_blind (config : Configuration)
    (r1 r2 : SyncFolder → ApiMethod → Bool) (rmf : String → Bool) :
    ∀ (deny : List SyncFolder) (fs : List String),
      (deny_loop config ⟨r1, rmf⟩ deny fs).1.map erase_ok =
        (deny_loop config ⟨r2, rmf⟩ deny fs).1.map erase_ok ∧
      (deny_loop config ⟨r1, rmf⟩ deny fs).2 =
        (deny_loop config ⟨r2, rmf⟩ deny fs).2 := by
  intro deny
  induction deny with
  | nil => exact fun fs => ⟨rfl, rfl⟩
  | cons f rest ih =>
    intro fs
    by_cases hc : os_path_join config.sync_dir f.id ∈ fs
    · by_cases hr : rmf (os_path_join config.sync_dir f.id)
      · simp [deny_loop, hc, hr, erase_ok]
      · have h := ih (fs.filter (fun q => q != os_path_join config.sync_dir f.id))
        simp [deny_loop, hc, hr, erase_ok, h.1, h.2]
    · have h := ih fs
      simp [deny_loop, hc, erase_ok, h.1, h.2]

/-- C2 as amended: the local deletion in the deny loop is not gated on the
Remove call's result.  The trace modulo recorded booleans, the final
filesystem and completion are identical under any two remote oracles, and a
folder whose mirror exists when it is processed has the mirror deleted right
after its Remove call even when that call reported failure (provided
`rmtree` itself does not raise); the Remove call still precedes the
deletion. -/
theorem c2_local_delete_ignores_remove_result (config : Configuration)
    (r1 r2 : SyncFolder → ApiMethod → Bool) (rmf : String → Bool)
    (deny : List SyncFolder) (fs : List String) (f : SyncFolder)
    (hmem : os_path_join config.sync_dir f.id ∈ fs)
    (hrm : rmf (os_path_join config.sync_dir f.id) = false) :
    (deny_loop config ⟨r1, rmf⟩ deny fs).1.map erase_ok =
      (deny_loop config ⟨r2, rmf⟩ deny fs).1.map erase_ok ∧
    (deny_loop config ⟨r1, rmf⟩ deny fs).2 =
      (deny_loop config ⟨r2, rmf⟩ deny fs).2 ∧
    deny_loop config ⟨r1, rmf⟩ (f :: deny) fs =
      (Event.remove_call f.id (r1 f ApiMethod.REMOVE_FOLDER) ::
        Event.rmtree (os_path_join config.sync_dir f.id) ::
        (deny_loop config ⟨r1, rmf⟩ deny
          (fs.filter (fun q => q != os_path_join config.sync_dir f.id))).1,
        (deny_loop config ⟨r1, rmf⟩ deny
          (fs.filter (fun q => q != os_path_join config.sync_dir f.id))).2) := by
  refine ⟨(deny_loop_blind config r1 r2 rmf deny fs).1,
    (deny_loop_blind config r1 r2 rmf deny fs).2, ?_⟩
  simp [deny_loop, hmem, hrm]

/-- Witness for C2: a one-folder deny list whose mirror exists; the final
filesystem is the same whether the remote reports failure or success. -/
theorem c2_witness :
    (deny_loop cfg0 ⟨fun _ _ => false, fun _ => false⟩
        [mkFolder "OldGame" "old_game" "k"] ["/sync/old_game"]).2 =
      (deny_loop cfg0 ⟨fun _ _ => true, fun _ => false⟩
        [mkFolder "OldGame" "old_game" "k"] ["/sync/old_game"]).2 :=
  (c2_local_delete_ignores_remove_result cfg0 (fun _ _ => false) (fun _ _ => true)
    (fun _ => false) [mkFolder "OldGame" "old_game" "k"] ["/sync/old_game"]
    (mkFolder "OldGame" "old_game" "k") (by decide) rfl).2.1

/-- C2 counterexample to the claim as stated: the remote Remove call returns
failure, yet the local mirror directory is deleted -- `folder.remove()`'s
result is ignored at `sync_script.py` lines 134-139, so the directory is
not left untouched. -/
theorem c2_counterexample :
    deny_loop cfg0 envNoRemote [mkFolder "OldGame" "old_game" "k"]
        ["/sync/old_game"] =
      ([Event.remove_call "old_game" false, Event.rmtree "/sync/old_game"],
        [], true) := by
  decide

/-! Claim C8: deletion failures during mirror cleanup. -/

/-- Proof helper: every folder handled by `cleanup_loop` gets its Remove
call recorded, whatever the oracles do. -/
theorem cleanup_loop_remove_events (config : Configuration) (env : Env) :
    ∀ (l : List SyncFolder) (fs : List String), ∀ f ∈ l,
      Event.remove_call f.id (env.remote f ApiMethod.REMOVE_FOLDER) ∈
        (cleanup_loop config env l fs).1 := by
  intro l
  induction l with
  | nil => intro fs f hf; cases hf
  | cons g rest ih =>
    intro fs f hf
    rcases List.mem_cons.mp hf with rfl | hf'
    · refine List.mem_append.mpr (Or.inl ?_)
      by_cases hc : os_path_join config.sync_dir f.id ∈ fs
      · by_cases hr : env.rmtree_raises (os_path_join config.sync_dir f.id)
        · simp [cleanup_step, hc, hr]
        · simp [cleanup_step, hc, hr]
      · simp [cleanup_step, hc]
    · exact List.mem_append.mpr (Or.inr (ih _ f hf'))

/-- Proof helper: `cleanup_loop` never adds paths to the filesystem. -/
theorem cleanup_loop_fs_shrink (config : Configuration) (env : Env) :
    ∀ (l : List SyncFolder) (fs : List String) (p : String),
      p ∈ (cleanup_loop config env l fs).2 → p ∈ fs := by
  intro l
  induction l with
  | nil => intro fs p hp; exact hp
  | cons g rest ih =>
    intro fs p hp
    have h2 := ih (cleanup_step config env fs g).2 p hp
    by_cases hc : os_path_join config.sync_dir g.id ∈ fs
    · by_cases hr : env.rmtree_raises (os_path_join config.sync_dir g.id)
      · simpa [cleanup_step, hc, hr] using h2
      · simp only [cleanup_step] at h2
        rw [if_pos (by simpa using hc), if_neg hr] at h2
        have h3 : p ∈ fs ∧ ¬ p = os_path_join config.sync_dir g.id := by simpa using h2
        exact h3.1
    · simpa [cleanup_step, hc] using h2

/-- Proof helper: if `rmtree` never raises, no processed folder's mirror
path survives `cleanup_loop`. -/
theorem cleanup_loop_deletes (config : Configuration) (env : Env)
    (hrm : ∀ p, env.rmtree_raises p = false) :
    ∀ (l : List SyncFolder) (fs : List String), ∀ f ∈ l,
      os_path_join config.sync_dir f.id ∉ (cleanup_loop config env l fs).2 := by
  intro l
  induction l with
  | nil => intro fs f hf; cases hf
  | cons g rest ih =>
    intro fs f hf
    rcases List.mem_cons.mp hf with rfl | hf'
    · intro hmem
      have h2 := cleanup_loop_fs_shrink config env rest
        (cleanup_step config env fs f).2 _ hmem
      by_cases hc : os_path_join config.sync_dir f.id ∈ fs
      · simp only [cleanup_step] at h2
        rw [if_pos (by simpa using hc), if_neg (by simp [hrm])] at h2
        simp at h2
      · simp [cleanup_step, hc] at h2
    · exact ih _ f hf'

/-- An environment whose remote calls all report success and whose `rmtree`
raises exactly on the path "/sync/a". -/
def envRmFailA : Env := ⟨fun _ _ => true, fun p => p == "/sync/a"⟩

/-- C8 as amended: in `cleanup` a deletion failure is confined to its
folder's unit of work -- every folder of the batch still gets its Remove
call recorded, whatever the `rmtree` oracle does -- but in the deny loop of
`update_game_folders` an `rmtree` exception propagates: the loop stops at
the failing folder, the remaining deny folders are not processed, and the
run does not complete. -/
theorem c8_deletion_failure_containment (config : Configuration) (env : Env)
    (folders : List SyncFolder) (fs : List String) (f : SyncFolder)
    (rest : List SyncFolder) (fs0 : List String)
    (hmem : os_path_join config.sync_dir f.id ∈ fs0)
    (hraise : env.rmtree_raises (os_path_join config.sync_dir f.id) = true) :
    (∀ g ∈ folders, Event.remove_call g.id (env.remote g ApiMethod.REMOVE_FOLDER) ∈
        (cleanup_loop config env folders fs).1) ∧
    deny_loop config env (f :: rest) fs0 =
      ([Event.remove_call f.id (env.remote f ApiMethod.REMOVE_FOLDER)], fs0, false) := by
  refine ⟨cleanup_loop_remove_events config env folders fs, ?_⟩
  simp [deny_loop, hmem, hraise]

/-- Witness for C8: with `rmtree` failing on "/sync/a", the cleanup batch
still records the Remove call of the second folder "b", while the deny loop
aborts right after the first folder. -/
theorem c8_witness :
    Event.remove_call (mkFolder "B" "b" "s").id
        (envRmFailA.remote (mkFolder "B" "b" "s") ApiMethod.REMOVE_FOLDER) ∈
      (cleanup_loop cfg0 envRmFailA [mkFolder "A" "a" "s", mkFolder "B" "b" "s"]
        ["/sync/a", "/sync/b"]).1 ∧
    deny_loop cfg0 envRmFailA
        (mkFolder "A" "a" "s" :: [mkFolder "B" "b" "s"]) ["/sync/a", "/sync/b"] =
      ([Event.remove_call (mkFolder "A" "a" "s").id
          (envRmFailA.remote (mkFolder "A" "a" "s") ApiMethod.REMOVE_FOLDER)],
        ["/sync/a", "/sync/b"], false) := by
  have h := c8_deletion_failure_containment cfg0 envRmFailA
    [mkFolder "A" "a" "s", mkFolder "B" "b" "s"] ["/sync/a", "/sync/b"]
    (mkFolder "A" "a" "s") [mkFolder "B" "b" "s"] ["/sync/a", "/sync/b"]
    (by decide) (by decide)
  exact ⟨h.1 (mkFolder "B" "b" "s") (by decide), h.2⟩

/-- C8 counterexample to the claim as stated: in the deny phase of
`update_game_folders` the first folder's `rmtree` raises; the run stops
there -- the second deny folder never receives its Remove call and the run
does not reach completion, contrary to "every remaining folder in the phase
still has its operations attempted". -/
theorem c8_counterexample :
    update_game_folders cfg0 [] [mkFolder "A" "a" "s", mkFolder "B" "b" "s"]
        envRmFailA ["/sync/a", "/sync/b"] =
      ⟨[Event.sync_call "Tools" true, Event.remove_call "a" true],
        ["/sync/a", "/sync/b"], false⟩ ∧
    Event.remove_call "b" true ∉
      (update_game_folders cfg0 [] [mkFolder "A" "a" "s", mkFolder "B" "b" "s"]
        envRmFailA ["/sync/a", "/sync/b"]).events ∧
    Event.remove_call "b" false ∉
      (update_game_folders cfg0 [] [mkFolder "A" "a" "s", mkFolder "B" "b" "s"]
        envRmFailA ["/sync/a", "/sync/b"]).events := by
  decide

/-! Claim C3: the cleanup entry point. -/

/-- C3 as amended: once confirmed, `cleanup` issues a Remove for every
catalog folder -- the allow rows and the discard rows; the system folders
from the configuration are NOT among them -- and, when no deletion fails,
no catalog folder's local mirror path survives; the run completes. -/
theorem c3_cleanup_tear_down (config : Configuration) (confirm : String)
    (allow_rows discard_rows : List SyncFolder) (env : Env) (fs : List String)
    (hconf : py_lower confirm = "yes")
    (hrm : ∀ p, env.rmtree_raises p = false) :
    (∀ f ∈ allow_rows ++ discard_rows,
      Event.remove_call f.id (env.remote f ApiMethod.REMOVE_FOLDER) ∈
        (cleanup_run config confirm allow_rows discard_rows env fs).events) ∧
    (∀ f ∈ allow_rows ++ discard_rows,
      os_path_join config.sync_dir f.id ∉
        (cleanup_run config confirm allow_rows discard_rows env fs).fs) ∧
    (cleanup_run config confirm allow_rows discard_rows env fs).completed = true := by
  simp only [cleanup_run, hconf, if_pos]
  exact ⟨cleanup_loop_remove_events config env _ fs,
    cleanup_loop_deletes config env hrm _ fs, trivial⟩

/-- Witness for C3: a confirmed concrete cleanup over one catalog folder
whose mirror exists; its mirror is gone afterwards and the run completed. -/
theorem c3_witness :
    os_path_join cfg0.sync_dir (mkFolder "G" "g" "k").id ∉
      (cleanup_run cfg0 "yes" [mkFolder "G" "g" "k"] [] envNoRemote
        ["/sync/g"]).fs ∧
    (cleanup_run cfg0 "yes" [mkFolder "G" "g" "k"] [] envNoRemote
      ["/sync/g"]).completed = true := by
  have h := c3_cleanup_tear_down cfg0 "yes" [mkFolder "G" "g" "k"] [] envNoRemote
    ["/sync/g"] (by decide) (fun p => rfl)
  exact ⟨h.2.1 (mkFolder "G" "g" "k") (by decide), h.2.2⟩

/-- C3 counterexample to the claim as stated: `cfg0` declares the system
folder "Tools", yet a confirmed cleanup run issues Remove only for the
catalog folder "g" -- no operation mentions "Tools", so cleanup does not
issue a Remove for every known folder including the system folders. -/
theorem c3_counterexample :
    cfg0.get_folders.map Prod.fst = ["Tools"] ∧
    cleanup_run cfg0 "yes" [mkFolder "G" "g" "k"] [] envNoRemote [] =
      ⟨[Event.remove_call "g" false], [], true⟩ := by
  decide

/-! Claim C5: the boolean an API call returns. -/

/-- A concrete folder with a non-empty secret. -/
def folder0 : SyncFolder := mkFolder "Launcher" "launcher" "ABC123"

/-- C5 as amended: an API call never lets an exception escape -- its result
is always a boolean -- and it returns `true` exactly when the HTTP exchange
delivered a response whose status is outside the `HTTPError` range 400-599
and whose body parsed as JSON; the application-level error code in the
parsed body is irrelevant.  Connection failures, 4xx/5xx statuses and
unparseable bodies yield `false`.  (A non-2xx status outside 400-599, such
as 304, still yields `true`: `raise_for_status` does not raise there.) -/
theorem c5_transport_level_boolean (f : SyncFolder) (method : ApiMethod)
    (force : Bool) (http : HttpResult) :
    (∃ b, make_sync_request f method force http = Except.ok b) ∧
    (make_sync_request f method force http = Except.ok true ↔
      ∃ status resp, http = HttpResult.response status (some resp) ∧
        ¬ (400 ≤ status ∧ status < 600)) := by
  constructor
  · cases http with
    | error => exact ⟨false, rfl⟩
    | response status body =>
      by_cases hs : raise_for_status_raises status
      · exact ⟨false, by
          simp [make_sync_request, make_sync_request_try, hs, is_request_exception]⟩
      · cases body with
        | none => exact ⟨false, by
            simp [make_sync_request, make_sync_request_try, hs, is_request_exception]⟩
        | some resp => exact ⟨true, by
            simp [make_sync_request, make_sync_request_try, hs]⟩
  · constructor
    · intro h
      cases http with
      | error =>
        simp [make_sync_request, make_sync_request_try, is_request_exception] at h
      | response status body =>
        by_cases hs : raise_for_status_raises status
        · simp [make_sync_request, make_sync_request_try, hs, is_request_exception] at h
        · cases body with
          | none =>
            simp [make_sync_request, make_sync_request_try, hs, is_request_exception] at h
          | some resp =>
            refine ⟨status, resp, rfl, fun hrange => hs ?_⟩
            simp [raise_for_status_raises]
            omega
    · rintro ⟨status, resp, rfl, hrange⟩
      have hs : raise_for_status_raises status = false := by
        simp [raise_for_status_raises]
        omega
      simp [make_sync_request, make_sync_request_try, hs]

/-- C5 counterexample to the claim as stated: a completed response with the
non-2xx status 304 and a parseable body makes the call return `true`, not
`false` -- `raise_for_status` raises only for 400-599, so a non-2xx status
is not by itself an operation failure. -/
theorem c5_counterexample :
    make_sync_request folder0 ApiMethod.ADD_FOLDER false
        (HttpResult.response 304 (some ⟨some "ok", some 0⟩)) = Except.ok true ∧
    ¬ (200 ≤ 304 ∧ 304 < 300) := by
  exact ⟨rfl, by omega⟩

/-! Claim C10: an unparseable JSON body in a successful response. -/

/-- C10 as amended: when the HTTP request completes without `HTTPError` but
the body is not parseable as JSON, the decode exception does NOT propagate:
`response.json()` raises `requests.exceptions.JSONDecodeError`, which since
requests 2.27 is a subclass of `RequestException` and is therefore caught
by the handler -- the call returns `false`, like a transport failure. -/
theorem c10_json_decode_returns_false (f : SyncFolder) (method : ApiMethod)
    (force : Bool) (status : Nat) (h : ¬ (400 ≤ status ∧ status < 600)) :
    make_sync_request f method force (HttpResult.response status none) =
      Except.ok false := by
  have hs : raise_for_status_raises status = false := by
    simp [raise_for_status_raises]
    omega
  simp [make_sync_request, make_sync_request_try, hs, is_request_exception]

/-- Witness for C10 at status 204 (a 2xx status) with an unparseable body. -/
theorem c10_witness :
    make_sync_request folder0 ApiMethod.SET_FOLDER_PREFS false
        (HttpResult.response 204 none) = Except.ok false :=
  c10_json_decode_returns_false folder0 ApiMethod.SET_FOLDER_PREFS false 204
    (by omega)

/-- C10 counterexample to the claim as stated: at status 200 with an
unparseable body the call returns the boolean `false`; in particular it does
not raise the decode exception out of the request layer. -/
theorem c10_counterexample :
    make_sync_request folder0 ApiMethod.ADD_FOLDER false
        (HttpResult.response 200 none) = Except.ok false ∧
    make_sync_request folder0 ApiMethod.ADD_FOLDER false
        (HttpResult.response 200 none) ≠
      Except.error ReqException.json_decode := by
  have h0 : make_sync_request folder0 ApiMethod.ADD_FOLDER false
      (HttpResult.response 200 none) = Except.ok false := rfl
  exact ⟨h0, by rw [h0]; simp⟩

/-! Claim C4: the secret query parameter in the built URL.

The URL is inspected as its character list; "contains a secret query
parameter" is read as: the marker "&secret=" occurs as a contiguous segment
of the URL.  The next lemmas locate where such a segment can sit inside an
append of blocks. -/

/-- Proof helper: a segment that starts with a character absent from `l₁`
cannot start inside `l₁`. -/
theorem head_notin_shift {α : Type*} {c : α} {p l₁ l₂ : List α} (hc : c ∉ l₁)
    (h : (c :: p) <:+: (l₁ ++ l₂)) : (c :: p) <:+: l₂ := by
  induction l₁ with
  | nil => simpa using h
  | cons x xs ih =>
    rw [List.cons_append] at h
    rcases List.infix_cons_iff.mp h with hpre | hinf
    · have hx := (List.cons_prefix_cons.mp hpre).1
      exact absurd (hx ▸ List.mem_cons_self x xs) hc
    · exact ih (fun hm => hc (List.mem_cons_of_mem x hm)) hinf

/-- Proof helper: a segment of an append lies in the left part, in the
right part, or straddles the boundary. -/
theorem seg_append_cases {α : Type*} {p a b : List α} (h : p <:+: a ++ b) :
    p <:+: a ∨ p <:+: b ∨
      ∃ a2 b1, a2 ≠ [] ∧ b1 ≠ [] ∧ a2 <:+ a ∧ b1 <+: b ∧ p = a2 ++ b1 := by
  induction a with
  | nil => exact Or.inr (Or.inl (by simpa using h))
  | cons x xs ih =>
    rw [List.cons_append] at h
    rcases List.infix_cons_iff.mp h with hpre | hinf
    · have hor := List.prefix_or_prefix_of_prefix hpre
        (List.prefix_append (x :: xs) b)
      rcases hor with h1 | h2
      · obtain ⟨t, ht⟩ := h1
        exact Or.inl ⟨[], t, by simpa using ht⟩
      · obtain ⟨r, hr⟩ := h2
        cases r with
        | nil =>
          rw [List.append_nil] at hr
          exact Or.inl ⟨[], [], by simpa using hr.symm⟩
        | cons y r' =>
          obtain ⟨t, ht⟩ := hpre
          rw [← hr, List.append_assoc] at ht
          have hrt : (y :: r') ++ t = b := List.append_cancel_left ht
          refine Or.inr (Or.inr ⟨x :: xs, y :: r', by simp, by simp,
            List.suffix_refl (x :: xs), ⟨t, hrt⟩, hr.symm⟩)
    · rcases ih hinf with h1 | h1 | ⟨a2, b1, h2, h3, h4, h5, h6⟩
      · exact Or.inl (List.infix_cons_iff.mpr (Or.inr h1))
      · exact Or.inr (Or.inl h1)
      · exact Or.inr (Or.inr ⟨a2, b1, h2, h3, h4.trans (List.suffix_cons x xs),
          h5, h6⟩)

/-- Proof helper: "secret=" is not a prefix of `opts ++ tail` when it is not
a prefix of `opts` and `tail` is empty or starts with an ampersand. -/
theorem sec_marker_not_pre (opts tail : List Char)
    (h1 : ¬ "secret=".data <+: opts)
    (h2 : tail = [] ∨ ∃ t', tail = '&' :: t') :
    ¬ "secret=".data <+: opts ++ tail := by
  intro hp
  have hor := List.prefix_or_prefix_of_prefix hp (List.prefix_append opts tail)
  rcases hor with ha | hb
  · exact h1 ha
  · obtain ⟨r, hr⟩ := hb
    obtain ⟨t, ht⟩ := hp
    rw [← hr, List.append_assoc] at ht
    have hrt : r ++ t = tail := List.append_cancel_left ht
    cases r with
    | nil =>
      rw [List.append_nil] at hr
      exact h1 (hr ▸ List.prefix_refl _)
    | cons c r' =>
      have hcmem : c ∈ "secret=".data := by
        rw [← hr]
        exact List.mem_append_right opts (List.mem_cons_self c r')
      rcases h2 with rfl | ⟨t', htl⟩
      · simp at hrt
      · rw [htl, List.cons_append] at hrt
        have hc : c = '&' := by
          have := congrArg List.head? hrt
          simpa using this
        rw [hc] at hcmem
        revert hcmem
        decide

/-- Proof helper: the URL built from the no-secret template contains no
"&secret=" segment, stated over its abstract block shape. -/
theorem no_secret_marker (A D opts T : List Char)
    (hA : '&' ∉ A) (hD : '&' ∉ D) (hDhead : ∃ D', D = 'd' :: D')
    (hT : T = "&force=1".data ∨ T = [])
    (h1 : ¬ "secret=".data <+: opts)
    (h2 : ¬ "&secret=".data <:+: opts) :
    ¬ "&secret=".data <:+: A ++ '&' :: (D ++ '&' :: (opts ++ T)) := by
  intro h
  have hshape : "&secret=".data = '&' :: "secret=".data := rfl
  rw [hshape] at h
  have h3 := head_notin_shift hA h
  rcases List.infix_cons_iff.mp h3 with hpre | hinf
  · have hp := (List.cons_prefix_cons.mp hpre).2
    obtain ⟨D', rfl⟩ := hDhead
    rw [show ("secret=" : String).data = 's' :: "ecret=".data from rfl,
      List.cons_append] at hp
    have hsd := (List.cons_prefix_cons.mp hp).1
    revert hsd
    decide
  · have h4 := head_notin_shift hD hinf
    rcases List.infix_cons_iff.mp h4 with hpre2 | hinf2
    · have hp2 := (List.cons_prefix_cons.mp hpre2).2
      have hT' : T = [] ∨ ∃ t', T = '&' :: t' := by
        rcases hT with rfl | rfl
        · exact Or.inr ⟨"force=1".data, rfl⟩
        · exact Or.inl rfl
      exact sec_marker_not_pre opts T h1 hT' hp2
    · rcases seg_append_cases hinf2 with ha | hb | ⟨a2, b1, ha2, hb1, hsuf, hpre3, heq⟩
      · exact h2 (hshape ▸ ha)
      · rcases hT with rfl | rfl
        · revert hb; decide
        · simp at hb
      · rcases hT with rfl | rfl
        · cases a2 with
          | nil => exact ha2 rfl
          | cons x a2' =>
            rw [List.cons_append] at heq
            have hb1mem : ∀ y ∈ b1, y ∈ "secret=".data := by
              intro y hy
              have := (List.cons.injEq _ _ _ _).mp heq
              rw [this.2]
              exact List.mem_append_right a2' hy
            cases b1 with
            | nil => exact hb1 rfl
            | cons y b1' =>
              have hy : y = '&' := by
                obtain ⟨t, htp⟩ := hpre3
                have := congrArg List.head? htp
                simpa using this
              have := hb1mem y (List.mem_cons_self y b1')
              rw [hy] at this
              revert this
              decide
        · obtain ⟨t, htp⟩ := hpre3
          simp at htp
          exact hb1 htp.1

/-- Proof helper: the ampersand occurs in no `ApiMethod` name. -/
theorem amp_not_in_method (method : ApiMethod) : '&' ∉ method.value.data := by
  cases method <;> decide

/-- Proof helper: character-list shape of the URL built with an empty
secret (the `API_SIMPLE_URL` template). -/
theorem make_url_data_of_empty (f : SyncFolder) (method : ApiMethod) (force : Bool)
    (hs : f.secret = "") :
    (make_url f method force).data =
      ("http://".data ++ f.config.host.data ++ "/api?method=".data ++ method.value.data)
        ++ '&' :: (("dir=".data ++ (f.config.sync_dir.data ++ '/' :: f.id.data))
        ++ '&' :: (f.config.sync_options.data ++
            (if force then "&force=1".data else []))) := by
  cases force <;>
    simp [make_url, hs, API_SIMPLE_URL, API_URL_BASE, String.data_append,
      show ("&dir=" : String).data = '&' :: "dir=".data from rfl,
      show ("&" : String).data = ['&'] from rfl,
      show ("/" : String).data = ['/'] from rfl,
      List.append_assoc, List.cons_append]

/-- Proof helper: the URL built with a non-empty secret contains the
"&secret=" marker (the `API_FOLDER_URL` template carries it verbatim). -/
theorem secret_marker_of_nonempty (f : SyncFolder) (method : ApiMethod)
    (force : Bool) (hs : f.secret ≠ "") :
    "&secret=".data <:+: (make_url f method force).data := by
  refine ⟨("http://" ++ f.config.host ++ "/api?method=" ++ method.value ++
      "&dir=" ++ (f.config.sync_dir ++ "/" ++ f.id)).data,
    (f.secret ++ "&" ++ f.config.sync_options ++
      (if force then "&force=1" else "")).data, ?_⟩
  cases force <;>
    simp [make_url, hs, API_FOLDER_URL, API_URL_BASE, String.data_append,
      List.append_assoc]

/-- C4: for every folder and operation, the built URL contains the secret
query parameter marker "&secret=" if and only if the folder's secret is
non-empty; with an empty secret the no-secret template is used and no such
marker occurs anywhere in the URL.  The side conditions state that the
configured host, sync dir, folder id and options are well-formed: none of
them smuggles in an ampersand-introduced secret parameter of its own. -/
theorem c4_secret_param_iff (f : SyncFolder) (method : ApiMethod) (force : Bool)
    (hhost : '&' ∉ f.config.host.data)
    (hdir : '&' ∉ f.config.sync_dir.data)
    (hid : '&' ∉ f.id.data)
    (hopt1 : ¬ "secret=".data <+: f.config.sync_options.data)
    (hopt2 : ¬ "&secret=".data <:+: f.config.sync_options.data) :
    ("&secret=".data <:+: (make_url f method force).data ↔ f.secret ≠ "") := by
  constructor
  · intro h hs
    rw [make_url_data_of_empty f method force hs] at h
    refine no_secret_marker _ _ _ _ ?_ ?_ ?_ ?_ hopt1 hopt2 h
    · intro hm
      simp only [List.mem_append] at hm
      rcases hm with ((h1 | h2) | h3) | h4
      · revert h1; decide
      · exact hhost h2
      · revert h3; decide
      · exact amp_not_in_method method h4
    · intro hm
      simp only [List.mem_append, List.mem_cons] at hm
      rcases hm with h1 | (h2 | (h3 | h4))
      · revert h1; decide
      · exact hdir h2
      · revert h3; decide
      · exact hid h4
    · exact ⟨"ir=".data ++ (f.config.sync_dir.data ++ '/' :: f.id.data), rfl⟩
    · cases force
      · exact Or.inr rfl
      · exact Or.inl rfl
  · exact secret_marker_of_nonempty f method force

/-- Witness for C4: the concrete folder `folder0` (secret "ABC123") gets a
URL with the marker, the same folder with the secret emptied gets one
without; the well-formedness side conditions hold for `cfg0`'s values. -/
theorem c4_witness :
    ("&secret=".data <:+: (make_url folder0 ApiMethod.ADD_FOLDER false).data ↔
      folder0.secret ≠ "") ∧
    ("&secret=".data <:+:
        (make_url (mkFolder "Launcher" "launcher" "") ApiMethod.REMOVE_FOLDER true).data ↔
      (mkFolder "Launcher" "launcher" "").secret ≠ "") := by
  constructor
  · exact c4_secret_param_iff folder0 ApiMethod.ADD_FOLDER false
      (by decide) (by decide) (by decide) (by decide) (by decide)
  · exact c4_secret_param_iff (mkFolder "Launcher" "launcher" "")
      ApiMethod.REMOVE_FOLDER true
      (by decide) (by decide) (by decide) (by decide) (by decide)

end Peti
